import Mathlib

/-!
Shallow embedding of the GLEC emissions-calculation engine
(api-gateway: `EmissionCalculator` template, the four mode strategies,
and the batch route handler).

Numbers are modelled as exact rationals (`ℚ`).  Optional request fields
are `Option` values.  JavaScript truthiness tests that the source performs
on optional numbers / booleans / strings are modelled by explicit
`truthy*` helpers: a number is truthy iff it is nonzero, a boolean iff it
is `true`, a string iff it is nonempty.
The external Supabase factor lookup is modelled as an
`Option EmissionFactor` parameter: `none` stands for both a thrown
database error and an empty result set (the code treats both alike by
falling back to `getDefaultFactor`); `some f` stands for a successful
lookup resolving to factor `f`.
`Date`-valued fields (`updatedAt`, `calculatedAt`) and the random
`calculationId` are omitted: they are wall-clock / RNG effects outside
the pure computation that the claims concern.
-/

namespace Glec

/-- Transport modes supported by the GLEC framework (`TransportMode`). -/
inductive TransportMode where
  | road | rail | sea | air
deriving DecidableEq

/-- Fuel types (`FuelType` closed enumeration). -/
inductive FuelType where
  | diesel | petrol | electric | hybrid | hfo | mgo | lng | jet_fuel | biodiesel | hydrogen
deriving DecidableEq

/-- Factor application unit (`EmissionFactor.unit`). -/
inductive FactorUnit where
  | km | tkm | kg_fuel | kwh
deriving DecidableEq

/-- Factor scope (`EmissionFactor.scope`). -/
inductive FactorScope where
  | ttw | wtw
deriving DecidableEq

/-- Route types (`ActivityData.routeType`). -/
inductive RouteType where
  | highway | urban | mixed | international
deriving DecidableEq

/-- Confidence labels (`metadata.confidence`). -/
inductive Confidence where
  | high | medium | low
deriving DecidableEq

/-- Vehicle capacity object (`VehicleCategory.capacity`). -/
structure Capacity where
  weight : Option ℚ := none
  volume : Option ℚ := none
  passengers : Option ℚ := none
deriving DecidableEq

/-- `VehicleCategory` from shared/types/glec. -/
structure VehicleCategory where
  type : String
  subType : Option String := none
  capacity : Option Capacity := none
  fuelType : FuelType
deriving DecidableEq

/-- `ActivityData` from shared/types/glec (origin/destination strings kept). -/
structure ActivityData where
  transportMode : TransportMode
  vehicle : VehicleCategory
  distance : Option ℚ := none
  weight : Option ℚ := none
  volume : Option ℚ := none
  loadFactor : Option ℚ := none
  emptyReturn : Option Bool := none
  origin : Option String := none
  destination : Option String := none
  routeType : Option RouteType := none
  fuelConsumed : Option ℚ := none
deriving DecidableEq

/-- `EmissionFactor` from shared/types/glec (`updatedAt : Date` omitted). -/
structure EmissionFactor where
  id : String
  transportMode : TransportMode
  vehicleType : String
  fuelType : FuelType
  co2Factor : ℚ
  ch4Factor : Option ℚ := none
  n2oFactor : Option ℚ := none
  unit : FactorUnit
  scope : FactorScope
  source : String
  version : String
  region : Option String := none
deriving DecidableEq

/-- `CalculationError` value from shared/types/glec. -/
structure CalculationError where
  code : String
  message : String
  field : Option String := none
  suggestion : Option String := none
deriving DecidableEq

/-- `CalculationRequest` (options are not consulted by the calculators). -/
structure CalculationRequest where
  activityData : ActivityData
deriving DecidableEq

/-- JavaScript truthiness of an optional number: truthy iff present and nonzero. -/
def truthyQ (o : Option ℚ) : Bool :=
  match o with
  | none => false
  | some x => x != 0

/-- JavaScript truthiness of an optional boolean. -/
def truthyOB (o : Option Bool) : Bool := o.getD false

/-- JavaScript truthiness of an optional string: truthy iff present and nonempty. -/
def truthyStr (o : Option String) : Bool :=
  match o with
  | none => false
  | some s => !s.isEmpty

/-- JavaScript `o || d` on an optional number: `d` when `o` is absent or zero. -/
def jsOr (o : Option ℚ) (d : ℚ) : ℚ :=
  match o with
  | none => d
  | some x => if x = 0 then d else x

/-- GLEC constant: GWP multipliers (GLEC_CONSTANTS.GWP, IPCC AR5 100-year). -/
def GWP_CO2 : ℚ := 1
/-- GWP multiplier for CH4. -/
def GWP_CH4 : ℚ := 28
/-- GWP multiplier for N2O. -/
def GWP_N2O : ℚ := 265

/-- GLEC constant: default load factors by mode (GLEC_CONSTANTS.DEFAULT_LOAD_FACTORS). -/
def defaultLoadFactorOf : TransportMode → ℚ
  | TransportMode.road => 7/10
  | TransportMode.rail => 4/5
  | TransportMode.sea => 17/20
  | TransportMode.air => 4/5

/-- `EmissionCalculator.convertToCO2e`: `co2 * GWP.CO2`, plus `ch4 * GWP.CH4`
when `ch4` is truthy, plus `n2o * GWP.N2O` when `n2o` is truthy. -/
def convertToCO2e (co2 : ℚ) (ch4 n2o : Option ℚ) : ℚ :=
  let t1 := co2 * GWP_CO2
  let t2 := if truthyQ ch4 then t1 + (ch4.getD 0) * GWP_CH4 else t1
  if truthyQ n2o then t2 + (n2o.getD 0) * GWP_N2O else t2

/-- Output record of each strategy's `calculateEmissions`. -/
structure EmissionsOutput where
  co2 : ℚ
  ch4 : Option ℚ := none
  n2o : Option ℚ := none
  total : ℚ
  directEmissions : ℚ
  indirectEmissions : ℚ
deriving DecidableEq

/-- Models `!x || x <= 0` on an optional number (distance / mass checks). -/
def missingOrNonpos (o : Option ℚ) : Bool :=
  match o with
  | none => true
  | some d => decide (d ≤ 0)

/-- `RoadTransportCalculator.validateInput`.  The `!data.vehicle.fuelType`
branch can never fire in the typed model (the enumeration is total), so it
produces no error here, exactly as for any well-typed request. -/
def roadValidateInput (data : ActivityData) : List CalculationError :=
  (if missingOrNonpos data.distance then
      [{ code := "INVALID_DISTANCE",
         message := "Distance must be provided and greater than 0",
         field := some "distance",
         suggestion := some "Provide distance in kilometers" }] else [])
  ++ (if data.vehicle.type.isEmpty then
      [{ code := "INVALID_VEHICLE",
         message := "Vehicle type must be specified",
         field := some "vehicle.type",
         suggestion := some "Use truck, van, car, motorcycle, etc." }] else [])
  ++ (if (match data.weight with | some w => decide (w < 0) | none => false) then
      [{ code := "INVALID_WEIGHT",
         message := "Weight cannot be negative",
         field := some "weight" }] else [])
  ++ (if (match data.loadFactor with
          | some lf => decide (lf < 0) || decide (1 < lf)
          | none => false) then
      [{ code := "INVALID_LOAD_FACTOR",
         message := "Load factor must be between 0 and 1",
         field := some "loadFactor",
         suggestion := some "Use decimal format (e.g., 0.7 for 70%)" }] else [])

/-- Default road co2 factors by lowercased vehicle type
(`RoadTransportCalculator.getDefaultFactor` table, kg CO2e/km; unknown
types fall back to the truck entry). -/
def roadDefaultCo2 (t : String) : ℚ :=
  if t = "truck" then 79/1000
  else if t = "van" then 195/1000
  else if t = "car" then 171/1000
  else if t = "motorcycle" then 84/1000
  else if t = "heavy_truck" then 125/1000
  else if t = "light_truck" then 65/1000
  else 79/1000

/-- `RoadTransportCalculator.getDefaultFactor`. -/
def roadGetDefaultFactor (vehicle : VehicleCategory) : EmissionFactor :=
  { id := "default_road"
    transportMode := TransportMode.road
    vehicleType := vehicle.type
    fuelType := vehicle.fuelType
    co2Factor := roadDefaultCo2 vehicle.type.toLower
    unit := FactorUnit.km
    scope := FactorScope.wtw
    source := "GLEC Framework v3.1 - Default Values"
    version := "3.1" }

/-- `RoadTransportCalculator.getDefaultLoadFactor` (by lowercased vehicle
type, `|| 0.7` fallback for unknown types). -/
def roadGetDefaultLoadFactor (vehicleType : String) : ℚ :=
  let l := vehicleType.toLower
  if l = "truck" then 7/10
  else if l = "van" then 6/10
  else if l = "car" then 1
  else if l = "motorcycle" then 1
  else if l = "heavy_truck" then 3/4
  else if l = "light_truck" then 13/20
  else 7/10

/-- `RoadTransportCalculator.normalizeVehicleType` (alias table keyed by
lowercased name, `|| vehicleType` fallback returning the original). -/
def normalizeVehicleType (vehicleType : String) : String :=
  let l := vehicleType.toLower
  if l = "truck" then "truck"
  else if l = "lorry" then "truck"
  else if l = "van" then "van"
  else if l = "car" then "car"
  else if l = "automobile" then "car"
  else if l = "motorcycle" then "motorcycle"
  else if l = "motorbike" then "motorcycle"
  else if l = "heavy_truck" then "heavy_truck"
  else if l = "heavy_goods_vehicle" then "heavy_truck"
  else if l = "hgv" then "heavy_truck"
  else if l = "light_truck" then "light_truck"
  else if l = "light_goods_vehicle" then "light_truck"
  else if l = "lgv" then "light_truck"
  else vehicleType

/-- `RoadTransportCalculator.normalizeActivityData`: replace a falsy
(absent or zero) load factor by the vehicle-type default, then normalize
the vehicle-type alias.  The default is looked up on the original
(pre-alias) vehicle type, as in the source. -/
def roadNormalizeActivityData (data : ActivityData) : ActivityData :=
  let lf := if truthyQ data.loadFactor then data.loadFactor
            else some (roadGetDefaultLoadFactor data.vehicle.type)
  { data with
    loadFactor := lf
    vehicle := { data.vehicle with type := normalizeVehicleType data.vehicle.type } }

/-- Well-to-Wheel (direct, indirect) ratio table by fuel type
(`RoadTransportCalculator.calculateWTWBreakdown`; the `|| diesel` fallback
is unreachable over the closed enumeration). -/
def wtwSplit : FuelType → ℚ × ℚ
  | FuelType.diesel => (74/100, 26/100)
  | FuelType.petrol => (76/100, 24/100)
  | FuelType.electric => (0, 1)
  | FuelType.hybrid => (50/100, 50/100)
  | FuelType.biodiesel => (80/100, 20/100)
  | FuelType.hfo => (72/100, 28/100)
  | FuelType.mgo => (73/100, 27/100)
  | FuelType.lng => (80/100, 20/100)
  | FuelType.jet_fuel => (75/100, 25/100)
  | FuelType.hydrogen => (0, 1)

/-- `RoadTransportCalculator.calculateEmissions`. -/
def roadCalculateEmissions (data : ActivityData) (factor : EmissionFactor) :
    EmissionsOutput :=
  let distance := data.distance.getD 0
  let loadFactor := jsOr data.loadFactor (7/10)
  let baseEmissions :=
    if factor.unit = FactorUnit.km then distance * factor.co2Factor
    else if factor.unit = FactorUnit.tkm ∧ truthyQ data.weight = true then
      distance * data.weight.getD 0 * factor.co2Factor
    else distance * factor.co2Factor
  let loadAdjustedEmissions := baseEmissions / max loadFactor (1/10)
  let totalEmissions :=
    if truthyOB data.emptyReturn then loadAdjustedEmissions * (3/2)
    else loadAdjustedEmissions
  let r := wtwSplit data.vehicle.fuelType
  let ch4Emissions :=
    if truthyQ factor.ch4Factor then
      some (distance * factor.ch4Factor.getD 0 * loadFactor) else none
  let n2oEmissions :=
    if truthyQ factor.n2oFactor then
      some (distance * factor.n2oFactor.getD 0 * loadFactor) else none
  { co2 := totalEmissions
    ch4 := ch4Emissions
    n2o := n2oEmissions
    total := convertToCO2e totalEmissions ch4Emissions n2oEmissions
    directEmissions := totalEmissions * r.1
    indirectEmissions := totalEmissions * r.2 }

/-- `RailTransportCalculator.validateInput` (distance and weight checks). -/
def railValidateInput (data : ActivityData) : List CalculationError :=
  (if missingOrNonpos data.distance then
      [{ code := "INVALID_DISTANCE",
         message := "Distance must be provided and greater than 0",
         field := some "distance" }] else [])
  ++ (if missingOrNonpos data.weight then
      [{ code := "INVALID_WEIGHT",
         message := "Weight (cargo tonnage) must be provided for rail transport",
         field := some "weight",
         suggestion := some "Provide cargo weight in tonnes" }] else [])

/-- `SeaTransportCalculator.validateInput`. -/
def seaValidateInput (data : ActivityData) : List CalculationError :=
  (if missingOrNonpos data.distance then
      [{ code := "INVALID_DISTANCE",
         message := "Distance must be provided and greater than 0",
         field := some "distance" }] else [])
  ++ (if missingOrNonpos data.weight then
      [{ code := "INVALID_WEIGHT",
         message := "Weight (cargo tonnage) must be provided for sea transport",
         field := some "weight" }] else [])

/-- `AirTransportCalculator.validateInput`. -/
def airValidateInput (data : ActivityData) : List CalculationError :=
  (if missingOrNonpos data.distance then
      [{ code := "INVALID_DISTANCE",
         message := "Distance must be provided and greater than 0",
         field := some "distance" }] else [])
  ++ (if missingOrNonpos data.weight then
      [{ code := "INVALID_WEIGHT",
         message := "Weight (cargo tonnage) must be provided for air transport",
         field := some "weight" }] else [])

/-- Rail default factor: electric freight train, 0.028 kg CO2e/tkm. -/
def railDefaultFactor : EmissionFactor :=
  { id := "default_rail"
    transportMode := TransportMode.rail
    vehicleType := "freight_train"
    fuelType := FuelType.electric
    co2Factor := 28/1000
    unit := FactorUnit.tkm
    scope := FactorScope.wtw
    source := "GLEC Framework v3.1 - Default Values"
    version := "3.1" }

/-- Sea default factor: container ship on HFO, 0.011 kg CO2e/tkm. -/
def seaDefaultFactor : EmissionFactor :=
  { id := "default_sea"
    transportMode := TransportMode.sea
    vehicleType := "container_ship"
    fuelType := FuelType.hfo
    co2Factor := 11/1000
    unit := FactorUnit.tkm
    scope := FactorScope.wtw
    source := "GLEC Framework v3.1 - Default Values"
    version := "3.1" }

/-- Air default factor: cargo plane on jet fuel, 0.602 kg CO2e/tkm. -/
def airDefaultFactor : EmissionFactor :=
  { id := "default_air"
    transportMode := TransportMode.air
    vehicleType := "cargo_plane"
    fuelType := FuelType.jet_fuel
    co2Factor := 602/1000
    unit := FactorUnit.tkm
    scope := FactorScope.wtw
    source := "GLEC Framework v3.1 - Default Values"
    version := "3.1" }

/-- `RailTransportCalculator.normalizeActivityData`:
`{ ...data, loadFactor: data.loadFactor || 0.8 }`. -/
def railNormalizeActivityData (data : ActivityData) : ActivityData :=
  { data with loadFactor := some (jsOr data.loadFactor (4/5)) }

/-- `SeaTransportCalculator.normalizeActivityData`:
`{ ...data, loadFactor: data.loadFactor || 0.85 }`. -/
def seaNormalizeActivityData (data : ActivityData) : ActivityData :=
  { data with loadFactor := some (jsOr data.loadFactor (17/20)) }

/-- `AirTransportCalculator.normalizeActivityData`:
`{ ...data, loadFactor: data.loadFactor || 0.8 }`. -/
def airNormalizeActivityData (data : ActivityData) : ActivityData :=
  { data with loadFactor := some (jsOr data.loadFactor (4/5)) }

/-- `RailTransportCalculator.calculateEmissions`: tonne-km formula, load
adjustment, fixed 10/90 direct/indirect split. -/
def railCalculateEmissions (data : ActivityData) (factor : EmissionFactor) :
    EmissionsOutput :=
  let distance := data.distance.getD 0
  let weight := data.weight.getD 0
  let tonneKm := distance * weight
  let baseEmissions := tonneKm * factor.co2Factor
  let loadFactor := jsOr data.loadFactor (4/5)
  let adjustedEmissions := baseEmissions / loadFactor
  { co2 := adjustedEmissions
    total := adjustedEmissions
    directEmissions := adjustedEmissions * (1/10)
    indirectEmissions := adjustedEmissions * (9/10) }

/-- `SeaTransportCalculator.calculateEmissions`: tonne-km formula, load
adjustment, fixed 72/28 split. -/
def seaCalculateEmissions (data : ActivityData) (factor : EmissionFactor) :
    EmissionsOutput :=
  let distance := data.distance.getD 0
  let weight := data.weight.getD 0
  let tonneKm := distance * weight
  let baseEmissions := tonneKm * factor.co2Factor
  let loadFactor := jsOr data.loadFactor (17/20)
  let adjustedEmissions := baseEmissions / loadFactor
  { co2 := adjustedEmissions
    total := adjustedEmissions
    directEmissions := adjustedEmissions * (72/100)
    indirectEmissions := adjustedEmissions * (28/100) }

/-- `AirTransportCalculator.calculateEmissions`: tonne-km formula with the
fixed `rfi = 1.9` aviation multiplier, load adjustment, fixed 75/25 split. -/
def airCalculateEmissions (data : ActivityData) (factor : EmissionFactor) :
    EmissionsOutput :=
  let distance := data.distance.getD 0
  let weight := data.weight.getD 0
  let tonneKm := distance * weight
  let rfi : ℚ := 19/10
  let baseEmissions := tonneKm * factor.co2Factor * rfi
  let loadFactor := jsOr data.loadFactor (4/5)
  let adjustedEmissions := baseEmissions / loadFactor
  { co2 := adjustedEmissions
    total := adjustedEmissions
    directEmissions := adjustedEmissions * (75/100)
    indirectEmissions := adjustedEmissions * (25/100) }

/-- Mode dispatch for `validateInput` (abstract-method implementations). -/
def validateInput : TransportMode → ActivityData → List CalculationError
  | TransportMode.road, d => roadValidateInput d
  | TransportMode.rail, d => railValidateInput d
  | TransportMode.sea, d => seaValidateInput d
  | TransportMode.air, d => airValidateInput d

/-- Mode dispatch for the default factor used when the lookup yields
nothing (`getDefaultFactor` for road; the hardcoded literals for the
other modes). -/
def getDefaultFactor : TransportMode → VehicleCategory → EmissionFactor
  | TransportMode.road, v => roadGetDefaultFactor v
  | TransportMode.rail, _ => railDefaultFactor
  | TransportMode.sea, _ => seaDefaultFactor
  | TransportMode.air, _ => airDefaultFactor

/-- `getEmissionFactor` with the Supabase boundary abstracted: `lookup`
is the outcome of the external query (`none` = thrown error or zero rows,
both of which the source answers with the default factor). -/
def getEmissionFactor (mode : TransportMode) (lookup : Option EmissionFactor)
    (data : ActivityData) : EmissionFactor :=
  match lookup with
  | some f => f
  | none => getDefaultFactor mode data.vehicle

/-- Mode dispatch for `normalizeActivityData`. -/
def normalizeActivityData : TransportMode → ActivityData → ActivityData
  | TransportMode.road, d => roadNormalizeActivityData d
  | TransportMode.rail, d => railNormalizeActivityData d
  | TransportMode.sea, d => seaNormalizeActivityData d
  | TransportMode.air, d => airNormalizeActivityData d

/-- Mode dispatch for `calculateEmissions`. -/
def calculateEmissions : TransportMode → ActivityData → EmissionFactor → EmissionsOutput
  | TransportMode.road, d, f => roadCalculateEmissions d f
  | TransportMode.rail, d, f => railCalculateEmissions d f
  | TransportMode.sea, d, f => seaCalculateEmissions d f
  | TransportMode.air, d, f => airCalculateEmissions d f

/-- `EmissionCalculator.calculateIntensity`: per-tkm when weight and
distance are truthy, per-km when only distance is, else the raw total. -/
def calculateIntensity (totalEmissions : ℚ) (data : ActivityData) : ℚ :=
  if truthyQ data.weight && truthyQ data.distance then
    totalEmissions / (data.weight.getD 0 * data.distance.getD 0)
  else if truthyQ data.distance then totalEmissions / data.distance.getD 0
  else totalEmissions

/-- `EmissionCalculator.calculateFuelEfficiency`. -/
def calculateFuelEfficiency (data : ActivityData) : Option ℚ :=
  if truthyQ data.fuelConsumed && truthyQ data.distance then
    some (data.distance.getD 0 / data.fuelConsumed.getD 0)
  else none

/-- `EmissionCalculator.getLoadUtilization`:
`data.loadFactor || DEFAULT_LOAD_FACTORS[mode]`. -/
def getLoadUtilization (mode : TransportMode) (data : ActivityData) : ℚ :=
  jsOr data.loadFactor (defaultLoadFactorOf mode)

/-- The `score` accumulated by `EmissionCalculator.assessConfidence`, in
the source's order, with JavaScript truthiness on each field. -/
def assessScore (data : ActivityData) (factor : EmissionFactor) : ℕ :=
  (if truthyQ data.weight then 2 else 0)
  + (if truthyQ data.distance then 2 else 0)
  + (if truthyQ data.loadFactor then 1 else 0)
  + (if truthyQ data.fuelConsumed then 2 else 0)
  + (if factor.scope = FactorScope.wtw then 1 else 0)
  + (if truthyStr factor.region then 1 else 0)

/-- `EmissionCalculator.assessConfidence`: thresholds 7 and 4 on the score. -/
def assessConfidence (data : ActivityData) (factor : EmissionFactor) : Confidence :=
  if 7 ≤ assessScore data factor then Confidence.high
  else if 4 ≤ assessScore data factor then Confidence.medium
  else Confidence.low

/-- `EmissionCalculator.getAssumptions` (base class): note it receives only
the activity data, never the resolved factor. -/
def baseGetAssumptions (mode : TransportMode) (data : ActivityData) : List String :=
  (if truthyQ data.loadFactor then []
   else ["Load factor assumed: " ++ toString (defaultLoadFactorOf mode * 100) ++ "%"])
  ++ (if truthyOB data.emptyReturn then [] else ["No empty return trip assumed"])

/-- `RoadTransportCalculator.getAssumptions` (base assumptions plus the
route / capacity / fuel-efficiency ones). -/
def roadGetAssumptions (data : ActivityData) : List String :=
  baseGetAssumptions TransportMode.road data
  ++ (if data.routeType.isSome then [] else ["Mixed highway/urban route assumed"])
  ++ (if data.vehicle.type = "truck" ∧ data.vehicle.capacity = none then
        ["Medium truck capacity assumed"] else [])
  ++ (if truthyQ data.fuelConsumed then []
      else ["Standard fuel efficiency assumed for vehicle type"])

/-- Mode dispatch for `getAssumptions` (only road overrides the base). -/
def getAssumptions : TransportMode → ActivityData → List String
  | TransportMode.road, d => roadGetAssumptions d
  | TransportMode.rail, d => baseGetAssumptions TransportMode.rail d
  | TransportMode.sea, d => baseGetAssumptions TransportMode.sea d
  | TransportMode.air, d => baseGetAssumptions TransportMode.air d

/-- Result `emissions` block. -/
structure EmissionsBlock where
  co2 : ℚ
  ch4 : Option ℚ := none
  n2o : Option ℚ := none
  total : ℚ
deriving DecidableEq

/-- Result `breakdown` block. -/
structure BreakdownBlock where
  directEmissions : ℚ
  indirectEmissions : ℚ
  fuelProduction : ℚ := 0
  fuelTransport : ℚ := 0
deriving DecidableEq

/-- Result `metrics` block. -/
structure MetricsBlock where
  emissionIntensity : ℚ
  fuelEfficiency : Option ℚ := none
  loadUtilization : ℚ
deriving DecidableEq

/-- Result `metadata` block (`calculatedAt` / `calculationId` omitted as
wall-clock / RNG effects). -/
structure MetadataBlock where
  glecVersion : String
  confidence : Confidence
  assumptions : List String
deriving DecidableEq

/-- `EmissionCalculationResult` (input echo flattened). -/
structure EmissionCalculationResult where
  activityData : ActivityData
  emissionFactor : EmissionFactor
  calculationMethod : String
  emissions : EmissionsBlock
  breakdown : BreakdownBlock
  metrics : MetricsBlock
  metadata : MetadataBlock
deriving DecidableEq

/-- Uppercase mode name used in `calculationMethod`. -/
def modeUpper : TransportMode → String
  | TransportMode.road => "ROAD"
  | TransportMode.rail => "RAIL"
  | TransportMode.sea => "SEA"
  | TransportMode.air => "AIR"

/-- `EmissionCalculator.buildResult`: assembles the result from the
normalized data, the resolved factor, and the strategy's emissions output. -/
def buildResult (mode : TransportMode) (activityData : ActivityData)
    (emissionFactor : EmissionFactor) (emissions : EmissionsOutput) :
    EmissionCalculationResult :=
  { activityData := activityData
    emissionFactor := emissionFactor
    calculationMethod := "GLEC_" ++ modeUpper mode ++ "_v3.1"
    emissions :=
      { co2 := emissions.co2
        ch4 := emissions.ch4
        n2o := emissions.n2o
        total := emissions.total }
    breakdown :=
      { directEmissions := emissions.directEmissions
        indirectEmissions := emissions.indirectEmissions }
    metrics :=
      { emissionIntensity := calculateIntensity emissions.total activityData
        fuelEfficiency := calculateFuelEfficiency activityData
        loadUtilization := getLoadUtilization mode activityData }
    metadata :=
      { glecVersion := "3.1"
        confidence := assessConfidence activityData emissionFactor
        assumptions := getAssumptions mode activityData } }

/-- `EmissionCalculator.calculate` (template method): validate, resolve the
factor, normalize, compute, assemble.  A nonempty validation-error list is
thrown in the source (`Validation failed: ` plus all messages joined);
here the thrown value carries the full collected list. -/
def calculate (mode : TransportMode) (lookup : Option EmissionFactor)
    (req : CalculationRequest) :
    Except (List CalculationError) EmissionCalculationResult :=
  let validationErrors := validateInput mode req.activityData
  if 0 < validationErrors.length then Except.error validationErrors
  else
    let emissionFactor := getEmissionFactor mode lookup req.activityData
    let normalizedData := normalizeActivityData mode req.activityData
    let emissions := calculateEmissions mode normalizedData emissionFactor
    Except.ok (buildResult mode normalizedData emissionFactor emissions)

/-- Batch request body (`batchCalculationSchema`): 1–100 calculation
requests plus `options.aggregateResults`; `includeDetailedBreakdown` is
never read by the handler. -/
structure BatchCalculationRequest where
  calculations : List CalculationRequest
  aggregateResults : Bool := false
deriving DecidableEq

/-- Batch `aggregate` object. -/
structure BatchAggregate where
  totalEmissions : ℚ
  averageIntensity : ℚ
  totalDistance : ℚ
  totalWeight : ℚ
  calculationCount : ℕ
deriving DecidableEq

/-- Batch handler response (`individual`, `aggregate`, `errors`, summary).
The source emits `errors: undefined` when no item failed; that is
modelled as the empty list. -/
structure BatchResponse where
  individual : List EmissionCalculationResult
  aggregate : Option BatchAggregate
  errors : List (ℕ × List CalculationError)
  totalRequests : ℕ
  successful : ℕ
  failed : ℕ
deriving DecidableEq

/-- One iteration of the batch loop: resolve the mode's calculator via the
factory and run `calculate`.  `lookup` supplies each mode's external
factor-query outcome. -/
def batchStep (lookup : TransportMode → Option EmissionFactor)
    (req : CalculationRequest) :
    Except (List CalculationError) EmissionCalculationResult :=
  calculate req.activityData.transportMode
    (lookup req.activityData.transportMode) req

/-- The `for` loop of the batch handler: successes are pushed to `results`
as `(index, result)`, failures to `errors` as `(index, error)`; both lists
come out in input order. -/
def batchLoop (lookup : TransportMode → Option EmissionFactor) :
    ℕ → List CalculationRequest →
    List (ℕ × EmissionCalculationResult) × List (ℕ × List CalculationError)
  | _, [] => ([], [])
  | i, req :: rest =>
    let tail := batchLoop lookup (i + 1) rest
    match batchStep lookup req with
    | Except.ok res => ((i, res) :: tail.1, tail.2)
    | Except.error e => (tail.1, (i, e) :: tail.2)

/-- The `/batch` route handler body after schema validation: run the loop,
build the optional aggregate (only when `aggregateResults` is truthy and
at least one item succeeded), and assemble the response. -/
def handleBatch (lookup : TransportMode → Option EmissionFactor)
    (breq : BatchCalculationRequest) : BatchResponse :=
  let p := batchLoop lookup 0 breq.calculations
  let results := p.1
  let errors := p.2
  let aggregate :=
    if breq.aggregateResults = true ∧ results ≠ [] then
      some
        { totalEmissions := (results.map (fun r => r.2.emissions.total)).sum
          averageIntensity :=
            (results.map (fun r => r.2.metrics.emissionIntensity)).sum / results.length
          totalDistance :=
            (results.map (fun r => r.2.activityData.distance.getD 0)).sum
          totalWeight :=
            (results.map (fun r => r.2.activityData.weight.getD 0)).sum
          calculationCount := results.length }
    else none
  { individual := results.map Prod.snd
    aggregate := aggregate
    errors := errors
    totalRequests := breq.calculations.length
    successful := results.length
    failed := errors.length }

/-- Decidable equality for `Except`, so that concrete pipeline runs can be
settled by `decide`. -/
instance {ε α : Type} [DecidableEq ε] [DecidableEq α] : DecidableEq (Except ε α) := by
  intro x y
  cases x <;> cases y
  case error.error a b =>
    exact if h : a = b then isTrue (by rw [h]) else isFalse (fun hh => h (by cases hh; rfl))
  case error.ok a b => exact isFalse (fun hh => by cases hh)
  case ok.error a b => exact isFalse (fun hh => by cases hh)
  case ok.ok a b =>
    exact if h : a = b then isTrue (by rw [h]) else isFalse (fun hh => h (by cases hh; rfl))

/-! ## Spec-side formulations

The following definitions transcribe the spec's wording of the claims,
for comparison with the code-derived definitions above. -/

/-- The base-emissions formula as the spec words it for the road mode:
`km` factors apply per distance; `tkm` factors apply per tonne-distance
whenever `weight` is *present*; anything else falls back to the
distance-based formula. -/
def specRoadBaseClaimed (data : ActivityData) (factor : EmissionFactor) : ℚ :=
  let distance := data.distance.getD 0
  if factor.unit = FactorUnit.km then distance * factor.co2Factor
  else if factor.unit = FactorUnit.tkm ∧ data.weight.isSome = true then
    distance * data.weight.getD 0 * factor.co2Factor
  else distance * factor.co2Factor

/-- The road co2 result as the spec words it: the claimed base divided by
`max(loadFactor, 0.1)`, times 1.5 exactly when `emptyReturn` is true. -/
def specRoadCo2Claimed (data : ActivityData) (factor : EmissionFactor) : ℚ :=
  let adjusted := specRoadBaseClaimed data factor / max (data.loadFactor.getD (7/10)) (1/10)
  if data.emptyReturn = some true then adjusted * (3/2) else adjusted

/-- The base-emissions formula amended to what the code tests: the
tonne-distance branch requires `weight` to be present *and nonzero*. -/
def specRoadBaseAmended (data : ActivityData) (factor : EmissionFactor) : ℚ :=
  let distance := data.distance.getD 0
  if factor.unit = FactorUnit.km then distance * factor.co2Factor
  else if factor.unit = FactorUnit.tkm ∧ truthyQ data.weight = true then
    distance * data.weight.getD 0 * factor.co2Factor
  else distance * factor.co2Factor

/-- The road co2 result under the amended base formula. -/
def specRoadCo2Amended (data : ActivityData) (factor : EmissionFactor) : ℚ :=
  let adjusted := specRoadBaseAmended data factor / max (data.loadFactor.getD (7/10)) (1/10)
  if data.emptyReturn = some true then adjusted * (3/2) else adjusted

/-- The confidence score as the spec words it: points for *presence* of
each field, in the spec's listing order. -/
def claimedConfidenceScore (data : ActivityData) (factor : EmissionFactor) : ℕ :=
  (if data.weight.isSome then 2 else 0)
  + (if data.distance.isSome then 2 else 0)
  + (if data.fuelConsumed.isSome then 2 else 0)
  + (if data.loadFactor.isSome then 1 else 0)
  + (if factor.scope = FactorScope.wtw then 1 else 0)
  + (if factor.region.isSome then 1 else 0)

/-- The confidence label under the spec's claimed score. -/
def claimedConfidenceLabel (data : ActivityData) (factor : EmissionFactor) : Confidence :=
  if 7 ≤ claimedConfidenceScore data factor then Confidence.high
  else if 4 ≤ claimedConfidenceScore data factor then Confidence.medium
  else Confidence.low

/-- The confidence score amended to what the code tests: points for a
*truthy* (nonzero / nonempty) value of each field. -/
def amendedConfidenceScore (data : ActivityData) (factor : EmissionFactor) : ℕ :=
  (if truthyQ data.weight then 2 else 0)
  + (if truthyQ data.distance then 2 else 0)
  + (if truthyQ data.fuelConsumed then 2 else 0)
  + (if truthyQ data.loadFactor then 1 else 0)
  + (if factor.scope = FactorScope.wtw then 1 else 0)
  + (if truthyStr factor.region then 1 else 0)

/-- The confidence label under the amended score. -/
def amendedConfidenceLabel (data : ActivityData) (factor : EmissionFactor) : Confidence :=
  if 7 ≤ amendedConfidenceScore data factor then Confidence.high
  else if 4 ≤ amendedConfidenceScore data factor then Confidence.medium
  else Confidence.low

/-- The default load factor that normalization writes for each mode, as
the code computes it (for road: the vehicle-type table). -/
def normalizedDefaultLoadFactor (mode : TransportMode) (data : ActivityData) : ℚ :=
  match mode with
  | TransportMode.road => roadGetDefaultLoadFactor data.vehicle.type
  | TransportMode.rail => 4/5
  | TransportMode.sea => 17/20
  | TransportMode.air => 4/5

/-! ## Concrete demonstration inputs used by witnesses and counterexamples -/

/-- A diesel truck vehicle. -/
def demoTruck : VehicleCategory := { type := "truck", fuelType := FuelType.diesel }

/-- An electric freight-train vehicle. -/
def demoTrain : VehicleCategory := { type := "freight_train", fuelType := FuelType.electric }

/-- Road activity with a `tkm` factor but zero cargo weight. -/
def c1CexData : ActivityData :=
  { transportMode := TransportMode.road, vehicle := demoTruck,
    distance := some 100, weight := some 0, loadFactor := some (1/2) }

/-- A `tkm` road factor with co2Factor 1. -/
def c1CexFactor : EmissionFactor :=
  { id := "f_tkm", transportMode := TransportMode.road, vehicleType := "truck",
    fuelType := FuelType.diesel, co2Factor := 1, unit := FactorUnit.tkm,
    scope := FactorScope.wtw, source := "test", version := "1" }

/-- Road activity with a nonzero cargo weight. -/
def c1WitData : ActivityData :=
  { transportMode := TransportMode.road, vehicle := demoTruck,
    distance := some 100, weight := some 2, loadFactor := some (1/2) }

/-- A minimal valid road request. -/
def c5Req : CalculationRequest :=
  { activityData :=
      { transportMode := TransportMode.road, vehicle := demoTruck, distance := some 100 } }

/-- A successfully looked-up road factor (per km, with a region). -/
def c5AltFactor : EmissionFactor :=
  { id := "db_road_1", transportMode := TransportMode.road, vehicleType := "truck",
    fuelType := FuelType.diesel, co2Factor := 1/10, unit := FactorUnit.km,
    scope := FactorScope.wtw, source := "db", version := "2", region := some "EU" }

/-- The result of running `c5Req` with the lookup failing (default factor
substituted). -/
def c5NoLookupRes : EmissionCalculationResult :=
  buildResult TransportMode.road (roadNormalizeActivityData c5Req.activityData)
    (roadGetDefaultFactor c5Req.activityData.vehicle)
    (roadCalculateEmissions (roadNormalizeActivityData c5Req.activityData)
      (roadGetDefaultFactor c5Req.activityData.vehicle))

/-- The result of running `c5Req` with the lookup succeeding. -/
def c5AltRes : EmissionCalculationResult :=
  buildResult TransportMode.road (roadNormalizeActivityData c5Req.activityData)
    c5AltFactor
    (roadCalculateEmissions (roadNormalizeActivityData c5Req.activityData) c5AltFactor)

/-- Road activity with a caller-supplied load factor of exactly 0. -/
def c6ZeroData : ActivityData :=
  { transportMode := TransportMode.road, vehicle := demoTruck,
    distance := some 100, loadFactor := some 0 }

/-- Road activity for a car with no load factor supplied. -/
def c6CarData : ActivityData :=
  { transportMode := TransportMode.road,
    vehicle := { type := "car", fuelType := FuelType.petrol }, distance := some 10 }

/-- Activity whose optional numeric fields are present but zero. -/
def c7Data : ActivityData :=
  { transportMode := TransportMode.road, vehicle := demoTruck,
    distance := some 100, weight := some 0, loadFactor := some 1,
    fuelConsumed := some 0 }

/-- A rail request matching spec Scenario B (300 km, 50 t, defaults). -/
def railGood : ActivityData :=
  { transportMode := TransportMode.rail, vehicle := demoTrain,
    distance := some 300, weight := some 50 }

/-- Scenario-B request wrapper. -/
def railGoodReq : CalculationRequest := { activityData := railGood }

/-- The Scenario-B result under a failed lookup. -/
def railDemoRes : EmissionCalculationResult :=
  buildResult TransportMode.rail (railNormalizeActivityData railGood) railDefaultFactor
    (railCalculateEmissions (railNormalizeActivityData railGood) railDefaultFactor)

/-- An invalid road request (no distance). -/
def c4Req : CalculationRequest :=
  { activityData := { transportMode := TransportMode.road, vehicle := demoTruck } }

/-- A road factor carrying a CH4 sub-factor. -/
def c10Factor : EmissionFactor :=
  { id := "f_ch4", transportMode := TransportMode.road, vehicleType := "truck",
    fuelType := FuelType.diesel, co2Factor := 1, ch4Factor := some (1/1000),
    unit := FactorUnit.km, scope := FactorScope.wtw, source := "test", version := "1" }

/-- A road request with full load (no load adjustment). -/
def c10Req : CalculationRequest :=
  { activityData :=
      { transportMode := TransportMode.road, vehicle := demoTruck,
        distance := some 100, loadFactor := some 1 } }

/-- The road result under `c10Factor`: carries a CH4 mass and a CO2e total
above the CO2 mass. -/
def c10RoadRes : EmissionCalculationResult :=
  buildResult TransportMode.road (roadNormalizeActivityData c10Req.activityData)
    c10Factor
    (roadCalculateEmissions (roadNormalizeActivityData c10Req.activityData) c10Factor)

/-- A two-item rail batch: one valid Scenario-B item, one invalid item
(missing distance and weight), with aggregation requested. -/
def demoBatch : BatchCalculationRequest :=
  { calculations :=
      [ { activityData := railGood },
        { activityData := { transportMode := TransportMode.rail, vehicle := demoTrain } } ]
    aggregateResults := true }

/-- A lookup oracle that always fails (defaults everywhere). -/
def noLookup : TransportMode → Option EmissionFactor := fun _ => none

/-! ## Theorems -/

/-- Each row of the WTW ratio table sums to 1. -/
lemma wtwSplit_sum (ft : FuelType) : (wtwSplit ft).1 + (wtwSplit ft).2 = 1 := by
  cases ft <;> norm_num [wtwSplit]

/-- At the strategy level, direct plus indirect emissions equal the co2
mass, for every mode, input and factor. -/
lemma calculateEmissions_breakdown_sum (mode : TransportMode) (data : ActivityData)
    (factor : EmissionFactor) :
    (calculateEmissions mode data factor).directEmissions
      + (calculateEmissions mode data factor).indirectEmissions
      = (calculateEmissions mode data factor).co2 := by
  cases mode
  case road =>
    simp only [calculateEmissions, roadCalculateEmissions]
    rw [← mul_add, wtwSplit_sum, mul_one]
  case rail =>
    simp only [calculateEmissions, railCalculateEmissions]
    ring
  case sea =>
    simp only [calculateEmissions, seaCalculateEmissions]
    ring
  case air =>
    simp only [calculateEmissions, airCalculateEmissions]
    ring

/-- C2: for every calculation result of every mode, the sum
`breakdown.directEmissions + breakdown.indirectEmissions` equals
`emissions.co2` (the total CO2 mass before GWP conversion) exactly. -/
theorem breakdown_sums_to_co2 (mode : TransportMode)
    (lookup : Option EmissionFactor) (req : CalculationRequest)
    (res : EmissionCalculationResult)
    (h : calculate mode lookup req = Except.ok res) :
    res.breakdown.directEmissions + res.breakdown.indirectEmissions
      = res.emissions.co2 := by
  simp only [calculate] at h
  split at h
  · exact absurd h (by simp)
  · injection h with h
    subst h
    simpa [buildResult] using
      calculateEmissions_breakdown_sum mode
        (normalizeActivityData mode req.activityData)
        (getEmissionFactor mode lookup req.activityData)

/-- C2 witness: the breakdown of the Scenario-B rail run sums to its co2. -/
theorem breakdown_sums_to_co2_witness :
    railDemoRes.breakdown.directEmissions + railDemoRes.breakdown.indirectEmissions
      = railDemoRes.emissions.co2 :=
  breakdown_sums_to_co2 TransportMode.rail none railGoodReq railDemoRes rfl

/-- C3: GWP conversion returns `co2 × 1 + ch4 × 28 + n2o × 265` for every
combination of inputs, an absent CH4 or N2O mass contributing 0. -/
theorem convertToCO2e_gwp (co2 : ℚ) (ch4 n2o : Option ℚ) :
    convertToCO2e co2 ch4 n2o
      = co2 * 1 + (ch4.getD 0) * 28 + (n2o.getD 0) * 265 := by
  unfold convertToCO2e GWP_CO2 GWP_CH4 GWP_N2O
  rcases ch4 with _ | c <;> rcases n2o with _ | n
  · simp [truthyQ]
  · by_cases hn : n = 0 <;> simp [truthyQ, hn]
  · by_cases hc : c = 0 <;> simp [truthyQ, hc]
  · by_cases hc : c = 0 <;> by_cases hn : n = 0 <;> simp [truthyQ, hc, hn]

/-- C9: the Scenario-B rail run (distance 300 km, weight 50 t, no caller
load factor, default factor 0.028 kg/tkm) yields tonne-km 15000, base 420,
adjusted co2 525 kg, direct 52.5 and indirect 472.5. -/
theorem rail_scenario_b :
    calculate TransportMode.rail none railGoodReq = Except.ok railDemoRes
    ∧ railDemoRes.emissions.co2 = 525
    ∧ railDemoRes.breakdown.directEmissions = 105/2
    ∧ railDemoRes.breakdown.indirectEmissions = 945/2
    ∧ (300 : ℚ) * 50 = 15000
    ∧ (15000 : ℚ) * railDefaultFactor.co2Factor = 420
    ∧ (railNormalizeActivityData railGood).loadFactor = some (4/5)
    ∧ (420 : ℚ) / (4/5) = 525 := by
  refine ⟨rfl, ?_, ?_, ?_, by norm_num, by norm_num [railDefaultFactor], rfl, by norm_num⟩
  all_goals
    norm_num [railDemoRes, buildResult, railCalculateEmissions,
      railNormalizeActivityData, railGood, jsOr, railDefaultFactor]

/-- Evaluation of `toLower` on the literal "truck" (the kernel cannot
reduce `String.mapAux`, so this goes through `String.map_eq`). -/
lemma toLower_truck : "truck".toLower = "truck" := by
  rw [String.toLower, String.map_eq]; decide

/-- Evaluation of `toLower` on the literal "car". -/
lemma toLower_car : "car".toLower = "car" := by
  rw [String.toLower, String.map_eq]; decide

/-- C4: a request whose validation yields a nonempty error list makes
`calculate` fail with the complete collected error list — never only the
first error, and never any (partial) result. -/
theorem invalid_input_reports_all_errors (mode : TransportMode)
    (lookup : Option EmissionFactor) (req : CalculationRequest)
    (h : validateInput mode req.activityData ≠ []) :
    calculate mode lookup req
      = Except.error (validateInput mode req.activityData) := by
  unfold calculate
  rw [if_pos (List.length_pos.mpr h)]

/-- C4 witness: a road request with no distance fails with its full
validation-error list. -/
theorem invalid_input_reports_all_errors_witness :
    calculate TransportMode.road none c4Req
      = Except.error (validateInput TransportMode.road c4Req.activityData) :=
  invalid_input_reports_all_errors TransportMode.road none c4Req (by decide)

/-- C5 counterexample: for a valid road request whose factor lookup fails
(the default factor is substituted), the result's assumptions are exactly
the four activity-derived strings — none records the substitution — and
the very same list is produced when the lookup succeeds, so the
assumptions cannot record whether a substitution happened. -/
theorem assumptions_ignore_substitution_counterexample :
    calculate TransportMode.road none c5Req = Except.ok c5NoLookupRes
    ∧ c5NoLookupRes.metadata.assumptions
        = ["No empty return trip assumed",
           "Mixed highway/urban route assumed",
           "Medium truck capacity assumed",
           "Standard fuel efficiency assumed for vehicle type"]
    ∧ calculate TransportMode.road (some c5AltFactor) c5Req = Except.ok c5AltRes
    ∧ c5AltRes.metadata.assumptions
        = ["No empty return trip assumed",
           "Mixed highway/urban route assumed",
           "Medium truck capacity assumed",
           "Standard fuel efficiency assumed for vehicle type"] := by
  refine ⟨rfl, ?_, rfl, ?_⟩ <;>
    norm_num [c5NoLookupRes, c5AltRes, buildResult, getAssumptions,
      roadGetAssumptions, baseGetAssumptions, roadNormalizeActivityData,
      normalizeVehicleType, roadGetDefaultLoadFactor, toLower_truck,
      truthyQ, truthyOB, truthyQ, c5Req, demoTruck, defaultLoadFactorOf]

/-- C5 as amended: the factor substitution is silent in the assumptions —
`metadata.assumptions` is a function of the activity data alone, so two
runs of the same request, one with a failed lookup (default factor
substituted) and one with a successful lookup, carry identical
assumption lists. -/
theorem assumptions_ignore_substitution (mode : TransportMode)
    (req : CalculationRequest) (l1 l2 : Option EmissionFactor)
    (res1 res2 : EmissionCalculationResult)
    (h1 : calculate mode l1 req = Except.ok res1)
    (h2 : calculate mode l2 req = Except.ok res2) :
    res1.metadata.assumptions = res2.metadata.assumptions := by
  simp only [calculate] at h1 h2
  split at h1
  · exact absurd h1 (by simp)
  · split at h2
    · exact absurd h2 (by simp)
    · injection h1 with h1
      injection h2 with h2
      subst h1
      subst h2
      simp [buildResult]

/-- C5 witness: the substituted-factor run and the looked-up-factor run of
the same road request have identical assumption lists. -/
theorem assumptions_ignore_substitution_witness :
    c5NoLookupRes.metadata.assumptions = c5AltRes.metadata.assumptions :=
  assumptions_ignore_substitution TransportMode.road c5Req none
    (some c5AltFactor) c5NoLookupRes c5AltRes rfl rfl

/-- C6 counterexample: a caller-supplied `loadFactor = 0` (a value in
[0,1]) is not kept — road normalization replaces it by the 0.7 truck
default; and for a car with `loadFactor` omitted the road default applied
is 1.0, outside the claimed 0.6–0.75 / 0.7 range. -/
theorem normalize_load_factor_counterexample :
    c6ZeroData.loadFactor = some 0
    ∧ (normalizeActivityData TransportMode.road c6ZeroData).loadFactor = some (7/10)
    ∧ c6CarData.loadFactor = none
    ∧ (normalizeActivityData TransportMode.road c6CarData).loadFactor = some 1 := by
  refine ⟨rfl, ?_, rfl, ?_⟩ <;>
    simp [normalizeActivityData, roadNormalizeActivityData, truthyQ,
      roadGetDefaultLoadFactor, toLower_truck, toLower_car, c6ZeroData,
      c6CarData, demoTruck]

/-- C6 as amended: normalization applies the mode default (road: the
vehicle-type table — truck 0.7, van 0.6, car 1.0, motorcycle 1.0,
heavy_truck 0.75, light_truck 0.65, other types 0.7; rail 0.8; sea 0.85;
air 0.8) exactly when the caller's `loadFactor` is absent **or 0**; a
nonzero supplied `loadFactor` is kept unchanged. -/
theorem normalize_load_factor_amended (mode : TransportMode) (data : ActivityData) :
    ((data.loadFactor = none ∨ data.loadFactor = some 0) →
      (normalizeActivityData mode data).loadFactor
        = some (normalizedDefaultLoadFactor mode data))
    ∧ (∀ lf : ℚ, data.loadFactor = some lf → lf ≠ 0 →
        (normalizeActivityData mode data).loadFactor = some lf) := by
  constructor
  · intro h
    cases mode <;>
      rcases h with h | h <;>
        simp [normalizeActivityData, roadNormalizeActivityData,
          railNormalizeActivityData, seaNormalizeActivityData,
          airNormalizeActivityData, truthyQ, jsOr, h,
          normalizedDefaultLoadFactor]
  · intro lf hlf hne
    cases mode <;>
      simp [normalizeActivityData, roadNormalizeActivityData,
        railNormalizeActivityData, seaNormalizeActivityData,
        airNormalizeActivityData, truthyQ, jsOr, hlf, hne]

/-- C6 witness: the supplied zero load factor is replaced by the road
default for the vehicle type. -/
theorem normalize_load_factor_amended_witness :
    (normalizeActivityData TransportMode.road c6ZeroData).loadFactor
      = some (normalizedDefaultLoadFactor TransportMode.road c6ZeroData) :=
  (normalize_load_factor_amended TransportMode.road c6ZeroData).1 (Or.inr rfl)

/-- C7 counterexample: with `weight` and `fuelConsumed` present but zero,
the code's confidence label (medium) differs from the label computed by
the claimed presence-based point system (high). -/
theorem confidence_points_counterexample :
    assessConfidence c7Data c5AltFactor ≠ claimedConfidenceLabel c7Data c5AltFactor
    ∧ assessConfidence c7Data c5AltFactor = Confidence.medium
    ∧ claimedConfidenceLabel c7Data c5AltFactor = Confidence.high := by
  decide

/-- C7 as amended: the confidence label is computed by the point system
with +2 each for a truthy (present and nonzero) `weight`, `distance` and
`fuelConsumed`, +1 for a truthy `loadFactor`, +1 for WTW scope, +1 for a
nonempty `region`; at least 7 points give "high", at least 4 "medium",
fewer "low"; the label is a pure function of these inputs. -/
theorem confidence_points_amended (data : ActivityData) (factor : EmissionFactor) :
    assessConfidence data factor = amendedConfidenceLabel data factor := by
  have hs : assessScore data factor = amendedConfidenceScore data factor := by
    unfold assessScore amendedConfidenceScore
    ring
  unfold assessConfidence amendedConfidenceLabel
  rw [hs]

/-- C1 counterexample: with a `tkm` factor and `weight` present but equal
to 0, the code computes the distance-based fallback (co2 = 200 here),
while the claimed formula (tonne-distance whenever weight is present)
yields 0. -/
theorem road_formula_counterexample :
    (roadCalculateEmissions c1CexData c1CexFactor).co2 = 200
    ∧ specRoadCo2Claimed c1CexData c1CexFactor = 0 := by
  constructor
  · norm_num [roadCalculateEmissions, c1CexData, c1CexFactor, jsOr, truthyQ,
      truthyOB, demoTruck, max_def]
  · norm_num [specRoadCo2Claimed, specRoadBaseClaimed, c1CexData, c1CexFactor,
      max_def]
    simp

/-- C1 as amended: for every road computation with a supplied nonzero load
factor, the reported co2 equals `base / max(loadFactor, 0.1)`, times 1.5
exactly when `emptyReturn` is true, where `base` is distance-based for
`km` factors, tonne-distance-based for `tkm` factors when `weight` is
present **and nonzero**, and distance-based in every other case. -/
theorem road_formula_amended (data : ActivityData) (factor : EmissionFactor)
    (lf : ℚ) (h1 : data.loadFactor = some lf) (h2 : lf ≠ 0) :
    (roadCalculateEmissions data factor).co2 = specRoadCo2Amended data factor := by
  have hjs : jsOr data.loadFactor (7/10) = lf := by rw [h1]; simp [jsOr, h2]
  have hgd : data.loadFactor.getD (7/10) = lf := by rw [h1]; rfl
  simp only [roadCalculateEmissions, specRoadCo2Amended, specRoadBaseAmended,
    hjs, hgd]
  rcases hE : data.emptyReturn with _ | b
  · simp [truthyOB, hE]
  · cases b <;> simp [truthyOB, hE]

/-- C1 witness: a road run with load factor 1/2, a `tkm` factor and a
nonzero weight matches the amended formula. -/
theorem road_formula_amended_witness :
    c1WitData.loadFactor = some (1/2)
    ∧ (roadCalculateEmissions c1WitData c1CexFactor).co2
        = specRoadCo2Amended c1WitData c1CexFactor :=
  ⟨rfl, road_formula_amended c1WitData c1CexFactor (1/2) rfl one_half_pos.ne'⟩

/-- C10: every successful rail, sea, or air calculation has
`emissions.total = emissions.co2` with no CH4/N2O components (their
strategies never produce them, so GWP conversion never changes the
total), while the road strategy can produce a CH4 mass and a CO2e total
exceeding the CO2 mass. -/
theorem gwp_identity_nonroad :
    (∀ mode : TransportMode, mode ≠ TransportMode.road →
      ∀ (lookup : Option EmissionFactor) (req : CalculationRequest)
        (res : EmissionCalculationResult),
        calculate mode lookup req = Except.ok res →
          res.emissions.total = res.emissions.co2
          ∧ res.emissions.ch4 = none ∧ res.emissions.n2o = none)
    ∧ (∃ (lookup : Option EmissionFactor) (req : CalculationRequest)
        (res : EmissionCalculationResult),
        calculate TransportMode.road lookup req = Except.ok res
        ∧ res.emissions.ch4 ≠ none
        ∧ res.emissions.total ≠ res.emissions.co2) := by
  constructor
  · intro mode hm lookup req res h
    simp only [calculate] at h
    split at h
    · exact absurd h (by simp)
    · injection h with h
      subst h
      cases mode
      case road => exact absurd rfl hm
      all_goals
        simp [buildResult, calculateEmissions, railCalculateEmissions,
          seaCalculateEmissions, airCalculateEmissions]
  · refine ⟨some c10Factor, c10Req, c10RoadRes, rfl, ?_, ?_⟩
    · norm_num [c10RoadRes, buildResult, roadCalculateEmissions, truthyQ,
        truthyOB, jsOr, c10Factor, c10Req, demoTruck,
        roadNormalizeActivityData, max_def, bne_iff_ne]
      simp
    · norm_num [c10RoadRes, buildResult, roadCalculateEmissions, truthyQ,
        truthyOB, jsOr, convertToCO2e, GWP_CO2, GWP_CH4, GWP_N2O, c10Factor,
        c10Req, demoTruck, roadNormalizeActivityData, max_def, bne_iff_ne]

/-- C10 witness: the Scenario-B rail result has total equal to co2 and no
CH4/N2O components. -/
theorem gwp_identity_nonroad_witness :
    railDemoRes.emissions.total = railDemoRes.emissions.co2
    ∧ railDemoRes.emissions.ch4 = none ∧ railDemoRes.emissions.n2o = none :=
  gwp_identity_nonroad.1 TransportMode.rail (by decide) none railGoodReq
    railDemoRes rfl

/-- The batch loop is an index-preserving partition of the per-item
outcomes: successes and failures are exactly the filtered enumerations of
the input, in input order. -/
lemma batchLoop_spec (lookup : TransportMode → Option EmissionFactor)
    (reqs : List CalculationRequest) : ∀ i : ℕ,
    batchLoop lookup i reqs =
      ((List.enumFrom i reqs).filterMap (fun p =>
          match batchStep lookup p.2 with
          | Except.ok r => some (p.1, r)
          | Except.error _ => none),
       (List.enumFrom i reqs).filterMap (fun p =>
          match batchStep lookup p.2 with
          | Except.ok _ => none
          | Except.error e => some (p.1, e))) := by
  induction reqs with
  | nil => intro i; rfl
  | cons r rest ih =>
    intro i
    simp only [batchLoop, List.enumFrom, List.filterMap_cons, ih]
    cases hb : batchStep lookup r <;> simp [hb]

/-- C8: batch items are processed independently in input order — the
error list is exactly the indexed failures and the individual list
exactly the successes, a failure at index `i` never aborting later
items — and when aggregation is requested and at least one item
succeeded, `aggregate.totalEmissions` is the sum of `emissions.total`
over the successful results. -/
theorem batch_partial_failure_and_aggregate
    (lookup : TransportMode → Option EmissionFactor)
    (breq : BatchCalculationRequest)
    (h1 : 1 ≤ breq.calculations.length) (h2 : breq.calculations.length ≤ 100) :
    (handleBatch lookup breq).errors
        = (breq.calculations.enum).filterMap (fun p =>
            match batchStep lookup p.2 with
            | Except.ok _ => none
            | Except.error e => some (p.1, e))
    ∧ (handleBatch lookup breq).individual
        = (breq.calculations.enum).filterMap (fun p =>
            match batchStep lookup p.2 with
            | Except.ok r => some r
            | Except.error _ => none)
    ∧ (breq.aggregateResults = true →
        (handleBatch lookup breq).individual ≠ [] →
        ∃ agg, (handleBatch lookup breq).aggregate = some agg
          ∧ agg.totalEmissions
              = ((handleBatch lookup breq).individual.map
                  (fun r => r.emissions.total)).sum) := by
  have hspec := batchLoop_spec lookup breq.calculations 0
  have hfg : (fun p : ℕ × CalculationRequest =>
      (match batchStep lookup p.2 with
       | Except.ok r => some (p.1, r)
       | Except.error _ => none).map Prod.snd)
      = (fun p : ℕ × CalculationRequest =>
          match batchStep lookup p.2 with
          | Except.ok r => some r
          | Except.error _ => none) := by
    funext p
    cases batchStep lookup p.2 <;> rfl
  refine ⟨?_, ?_, ?_⟩
  · show (batchLoop lookup 0 breq.calculations).2 = _
    rw [hspec]
    rfl
  · show (batchLoop lookup 0 breq.calculations).1.map Prod.snd = _
    rw [hspec, List.map_filterMap, hfg]
    rfl
  · intro hA hNe
    have hres : (batchLoop lookup 0 breq.calculations).1 ≠ [] := by
      intro h0
      apply hNe
      show (batchLoop lookup 0 breq.calculations).1.map Prod.snd = []
      rw [h0]
      rfl
    refine ⟨{
        totalEmissions := ((batchLoop lookup 0 breq.calculations).1.map (fun r => r.2.emissions.total)).sum,
        averageIntensity := ((batchLoop lookup 0 breq.calculations).1.map (fun r => r.2.metrics.emissionIntensity)).sum / (batchLoop lookup 0 breq.calculations).1.length,
        totalDistance := ((batchLoop lookup 0 breq.calculations).1.map (fun r => r.2.activityData.distance.getD 0)).sum,
        totalWeight := ((batchLoop lookup 0 breq.calculations).1.map (fun r => r.2.activityData.weight.getD 0)).sum,
        calculationCount := (batchLoop lookup 0 breq.calculations).1.length },
      ?_, ?_⟩
    · show (if breq.aggregateResults = true
              ∧ (batchLoop lookup 0 breq.calculations).1 ≠ [] then _ else none)
          = some _
      rw [if_pos ⟨hA, hres⟩]
    · show ((batchLoop lookup 0 breq.calculations).1.map
            (fun r => r.2.emissions.total)).sum
          = (((batchLoop lookup 0 breq.calculations).1.map Prod.snd).map
              (fun r => r.emissions.total)).sum
      rw [List.map_map]
      rfl

/-- C8 witness: a two-item batch (one valid rail item, one invalid)
satisfies the partition and aggregate characterizations. -/
theorem batch_partial_failure_and_aggregate_witness :
    (handleBatch noLookup demoBatch).errors
        = (demoBatch.calculations.enum).filterMap (fun p =>
            match batchStep noLookup p.2 with
            | Except.ok _ => none
            | Except.error e => some (p.1, e))
    ∧ (handleBatch noLookup demoBatch).individual
        = (demoBatch.calculations.enum).filterMap (fun p =>
            match batchStep noLookup p.2 with
            | Except.ok r => some r
            | Except.error _ => none)
    ∧ (demoBatch.aggregateResults = true →
        (handleBatch noLookup demoBatch).individual ≠ [] →
        ∃ agg, (handleBatch noLookup demoBatch).aggregate = some agg
          ∧ agg.totalEmissions
              = ((handleBatch noLookup demoBatch).individual.map
                  (fun r => r.emissions.total)).sum) :=
  batch_partial_failure_and_aggregate noLookup demoBatch (by decide) (by decide)

end Glec
